import Mathlib

/-!
# shippy-consignment-service: the auth middleware and the bootstrap routine

A shallow embedding of `main.go`: `AuthWrapper` (the handler decorator that
validates the call's token with the auth service before delegating) and `main`
(session lifecycle and service composition).

Collaborators that live outside `main.go` (the go-micro runtime, the generated
auth client, the datastore session) are parameters.  Every call made to a
collaborator is recorded, at its call site, in a trace of events; collaborators
themselves act on an external state `σ` only.
-/

set_option linter.dupNamespace false

namespace Shippy

/-! ## Go values -/

/-- A Go `error` value that is not nil.  `errorString` is what `errors.New`
builds; `foreign` stands for an error value built by a collaborator. -/
inductive GoError where
  | errorString (s : String)
  | foreign (code : Nat) (detail : String)
  deriving DecidableEq, Repr

/-- The `Error()` method. -/
def GoError.Error : GoError → String
  | .errorString s => s
  | .foreign _ d => d

/-- The value `errors.New(text)`. -/
def errorsNew (text : String) : GoError := .errorString text

/-- How `%v` and `Println` print an `error` operand: `<nil>` for nil, the
`Error()` text otherwise. -/
def fmtError : Option GoError → String
  | none => "<nil>"
  | some e => e.Error

/-- Call metadata, Go's `map[string]string`, as an association list (the first
binding of a key is the one a lookup sees). -/
abbrev Metadata := List (String × String)

/-- Go's map index expression `m[k]`: the stored value, or the zero value `""`
when the key is absent. -/
def Metadata.index (m : Metadata) (k : String) : String :=
  (m.lookup k).getD ""

/-- The `context.Context` values the middleware can meet: the background
context, a context with call metadata attached (`metadata.NewContext`), and a
cancellable child (`context.WithCancel`, identified by `id`). -/
inductive Context where
  | Background
  | NewContext (parent : Context) (md : Metadata)
  | WithCancel (parent : Context) (id : Nat)
  deriving DecidableEq, Repr

/-- The call `metadata.FromContext(ctx)`: the metadata mapping attached to the
context and `true`, or `nil, false` when no mapping is attached at all. -/
def FromContext : Context → Metadata × Bool
  | .Background => ([], false)
  | .NewContext _ md => (md, true)
  | .WithCancel parent _ => FromContext parent

/-- Whether `c` is `base` itself or was derived from it. -/
def Context.derivedFrom (base : Context) : Context → Bool
  | .Background => decide (base = .Background)
  | .NewContext parent md =>
      decide (base = .NewContext parent md) || Context.derivedFrom base parent
  | .WithCancel parent id =>
      decide (base = .WithCancel parent id) || Context.derivedFrom base parent

/-- Whether the context is cancelled once the cancel functions listed in
`fired` have been called: a context is done when its own cancel function or
that of an ancestor was called; the background context is never done. -/
def Context.cancelled (fired : List Nat) : Context → Bool
  | .Background => false
  | .NewContext parent _ => Context.cancelled fired parent
  | .WithCancel parent id => fired.contains id || Context.cancelled fired parent

/-- The request message of the auth service, `userService.Token`, with the one
field `main.go` sets. -/
structure Token where
  Token : String
  deriving DecidableEq, Repr

/-! ## The middleware -/

/-- What a call of the wrapped handler can be observed to do. -/
inductive Event (Req Resp : Type) where
  | logPrintln (line : String)
  | ValidateToken (service : String) (ctx : Context) (req : Token)
  | fn (ctx : Context) (req : Req) (resp : Resp)
  deriving DecidableEq, Repr

/-- The outcome of running a piece of code: its result, the events it
produced in order, and the external state it left. -/
structure Ran (ε σ α : Type) where
  result : α
  trace : List ε
  state : σ

/-- A `server.HandlerFunc` as the runtime supplies it: it takes the context,
the request and the response sink, and returns nil (`none`) or an error. -/
abbrev HandlerFunc (σ Req Resp : Type) :=
  Context → Req → Resp → σ → Option GoError × σ

/-- The auth-service client: `ValidateToken(ctx, token)` returns a response
payload (of a type `ρ` the middleware never inspects) and nil or an error. -/
structure AuthClient (σ ρ : Type) where
  ValidateToken : Context → Token → σ → (ρ × Option GoError) × σ

/-- The handler `AuthWrapper(fn)` returns, run on one call.
`NewAuthClient name` is the client `userService.NewAuthClient(name,
client.DefaultClient)` yields. -/
def AuthWrapper {σ ρ Req Resp : Type} (NewAuthClient : String → AuthClient σ ρ)
    (fn : HandlerFunc σ Req Resp) (ctx : Context) (req : Req) (resp : Resp)
    (s : σ) : Ran (Event Req Resp) σ (Option GoError) :=
  match FromContext ctx with
  | (_, false) =>
      ⟨some (errorsNew "no auth meta-data found in request"), [], s⟩
  | (md, true) =>
      let token := md.index "Token"
      let t1 : List (Event Req Resp) :=
        [.logPrintln ("Authenticating with token: " ++ " " ++ token)]
      let authClient := NewAuthClient "shippy.auth"
      let v := authClient.ValidateToken Context.Background ⟨token⟩ s
      let t2 := t1 ++ [.ValidateToken "shippy.auth" Context.Background ⟨token⟩]
      match v.1.2 with
      | some err => ⟨some err, t2 ++ [.logPrintln "Some error here"], v.2⟩
      | none =>
          let r := fn ctx req resp v.2
          ⟨r.1, t2 ++ [.fn ctx req resp, .logPrintln ("Err" ++ " " ++ fmtError r.1)],
            r.2⟩

/-- The calls of the wrapped handler recorded in a trace, with their
arguments. -/
def fnCalls {Req Resp : Type} : List (Event Req Resp) → List (Context × Req × Resp)
  | [] => []
  | .fn c q r :: t => (c, q, r) :: fnCalls t
  | _ :: t => fnCalls t

/-- The validation calls recorded in a trace: service name, context and
message of each. -/
def validateCalls {Req Resp : Type} :
    List (Event Req Resp) → List (String × Context × Token)
  | [] => []
  | .ValidateToken n c m :: t => (n, c, m) :: validateCalls t
  | _ :: t => validateCalls t

/-! ## The bootstrap routine -/

/-- The constant `defaultHost`. -/
def defaultHost : String := "0.0.0.0:27017"

/-- The call `os.Getenv(key)`: the value of the variable, or `""` when it is
not set. -/
def Getenv (environ : String → Option String) (key : String) : String :=
  (environ key).getD ""

/-- The variable `host` of `main`: the value of `DB_HOST`, replaced by
`defaultHost` when it is the empty string. -/
def host (environ : String → Option String) : String :=
  let host := Getenv environ "DB_HOST"
  if host = "" then defaultHost else host

/-- Modelled from the spec: the datastore session, whose code (this
repository's `CreateSession` and the driver's `Close`) is not part of
`main.go`.  `CreateSession` returns a session value together with nil or an
error; `Close` may be invoked on any session value, the one returned by a
failed open included, and returns normally (at worst it does nothing). -/
structure Datastore (σ S : Type) where
  CreateSession : String → σ → (S × Option GoError) × σ
  Close : S → σ → σ

/-- What an execution of `main` can be observed to do. -/
inductive MainEvent (S : Type) where
  | Getenv (key : String)
  | CreateSession (addr : String)
  | Close (session : S)
  | logPanicf (msg : String)
  | NewService (name : String)
  | fmtPrintln (line : String)
  | NewVesselServiceClient (name : String)
  | Init
  | RegisterShippingServiceHandler (session : S)
  | Run
  | logPrintln (line : String)
  deriving DecidableEq, Repr

/-- How `main` ends: it returns, or a panic with the given value unwinds it. -/
inductive Exit where
  | returned
  | panicked (msg : String)
  deriving DecidableEq, Repr

/-- The text `fmt.Sprintf("Could not connect to datastore with host %s - %v",
host, err)`. -/
def connectFailure (addr : String) (err : Option GoError) : String :=
  "Could not connect to datastore with host " ++ addr ++ " - " ++ fmtError err

/-- The statements of `main` that follow `defer session.Close()`.  `Run` is the
server loop `srv.Run()`, which returns nil or an error when it stops; the
go-micro calls before it (`NewService`, `NewVesselServiceClient`, `Init`,
`RegisterShippingServiceHandler`) return normally. -/
def mainAfterDefer {σ S : Type} (Run : σ → Option GoError × σ) (addr : String)
    (session : S) (err : Option GoError) (s : σ) : Ran (MainEvent S) σ Exit :=
  match err with
  | some e =>
      ⟨.panicked (connectFailure addr (some e)),
        [.logPanicf (connectFailure addr (some e))], s⟩
  | none =>
      let t : List (MainEvent S) :=
        [.NewService "shippy.consignment", .fmtPrintln "Connect to vessel",
          .NewVesselServiceClient "shippy.vessel", .Init,
          .fmtPrintln "Register shipping service handler",
          .RegisterShippingServiceHandler session, .Run]
      let r := Run s
      match r.1 with
      | some e =>
          ⟨.returned,
            t ++ [.logPrintln ("Some error found:" ++ " " ++ e.Error),
              .fmtPrintln e.Error], r.2⟩
      | none => ⟨.returned, t, r.2⟩

/-- The function `main`.  The deferred `session.Close()` is registered right
after `CreateSession` returns, before the error is looked at, and runs when the
rest of the function returns or panics. -/
def main {σ S : Type} (environ : String → Option String) (ds : Datastore σ S)
    (Run : σ → Option GoError × σ) (s : σ) : Ran (MainEvent S) σ Exit :=
  let addr := host environ
  let c := ds.CreateSession addr s
  let session := c.1.1
  let err := c.1.2
  let body := mainAfterDefer Run addr session err c.2
  ⟨body.result,
    [.Getenv "DB_HOST", .CreateSession addr] ++ body.trace ++ [.Close session],
    ds.Close session body.state⟩

/-- The sessions `Close` was invoked on, in order. -/
def closeCalls {S : Type} : List (MainEvent S) → List S
  | [] => []
  | .Close x :: t => x :: closeCalls t
  | _ :: t => closeCalls t

/-- Whether the event belongs to serving: creating the service, registering
the handler, or starting the server loop. -/
def MainEvent.serves {S : Type} : MainEvent S → Bool
  | .NewService _ => true
  | .RegisterShippingServiceHandler _ => true
  | .Run => true
  | _ => false

/-! ## Concrete collaborators, used to run the definitions -/

/-- An auth client that accepts every token: payload `true`, nil error. -/
def acceptAll : String → AuthClient Unit Bool :=
  fun _ => ⟨fun _ _ s => ((true, none), s)⟩

/-- A business handler that succeeds. -/
def okHandler : HandlerFunc Unit String String :=
  fun _ _ _ s => (none, s)

/-- A business handler that fails. -/
def failingHandler : HandlerFunc Unit String String :=
  fun _ _ _ s => (some (.foreign 500 "no vessel available"), s)

/-- A call context with the mapping `Token ↦ good` attached. -/
def goodCtx : Context := .NewContext .Background [("Token", "good")]

/-- A call context whose attached metadata mapping has no entries. -/
def emptyMetaCtx : Context := .NewContext .Background []

/-- A cancellable call context carrying a token. -/
def cancellableCtx : Context := .WithCancel goodCtx 7

/-- An environment in which `DB_HOST` is set to `mongo:27017`. -/
def envWithHost : String → Option String :=
  fun k => if k = "DB_HOST" then some "mongo:27017" else none

/-- An environment in which no variable is set. -/
def envUnset : String → Option String :=
  fun _ => none

/-- The external state of the recording collaborators: one entry for every
call a collaborator really received (who was called, under which context, with
which text). -/
abbrev Calls := List (String × Context × String)

/-- An auth client that records every call it really receives (the client
name, the context and the token of the message) and answers with the given
error, or accepts when there is none. -/
def recording (verdict : Option GoError) : String → AuthClient Calls Bool :=
  fun name => ⟨fun c t s => ((verdict.isNone, verdict), s ++ [(name, c, t.Token)])⟩

/-- An auth client that honours the context it is given, once the cancel
functions in `fired` have been called: under a cancelled context it returns the
error `context canceled`, under any other context it accepts.  It records
every call it really receives. -/
def cancelAware (fired : List Nat) : String → AuthClient Calls Bool :=
  fun name => ⟨fun c t s =>
    if Context.cancelled fired c then
      ((false, some (.foreign 499 "context canceled")), s ++ [(name, c, t.Token)])
    else ((true, none), s ++ [(name, c, t.Token)])⟩

/-- A business handler that records that it really ran (under the name `fn`,
with the context and the request it was given) and succeeds. -/
def recordedHandler : HandlerFunc Calls String String :=
  fun c q _ s => (none, s ++ [("fn", c, q)])

/-- A datastore that records every operation really applied to it; it is
reachable at `mongo:27017` only, as `mongoOnly` is. -/
def recordingStore : Datastore (List (String × String)) (Option Nat) :=
  ⟨fun addr s =>
      if addr = "mongo:27017" then ((some 1, none), s ++ [("CreateSession", addr)])
      else ((none, some (.foreign 1 "no reachable servers")),
        s ++ [("CreateSession", addr)]),
    fun _ s => s ++ [("Close", "")]⟩

/-- A server loop that records that it really ran and stops with the given
result. -/
def recordingRun (err : Option GoError) :
    List (String × String) → Option GoError × List (String × String) :=
  fun s => (err, s ++ [("Run", "")])

/-- An auth client that records every call it really receives and answers with
a payload marked not valid and a nil error. -/
def recordingMarkedInvalid : String → AuthClient Calls Bool :=
  fun name => ⟨fun c t s => ((false, none), s ++ [(name, c, t.Token)])⟩

/-! ## The middleware: theorems -/

/-- C1: when the context carries metadata and the validation call returns a
nil error, the wrapped handler `fn` is invoked exactly once, with the very
`ctx`, `req` and `resp` the wrapper received, and the wrapper returns exactly
what `fn` returned (nil or an error). -/
theorem AuthWrapper_accepted_delegates {σ ρ Req Resp : Type}
    (NewAuthClient : String → AuthClient σ ρ) (fn : HandlerFunc σ Req Resp)
    (ctx : Context) (req : Req) (resp : Resp) (s s1 : σ) (md : Metadata)
    (payload : ρ)
    (hmeta : FromContext ctx = (md, true))
    (hvalid : (NewAuthClient "shippy.auth").ValidateToken Context.Background
        ⟨md.index "Token"⟩ s = ((payload, none), s1)) :
    fnCalls (AuthWrapper NewAuthClient fn ctx req resp s).trace = [(ctx, req, resp)]
      ∧ (AuthWrapper NewAuthClient fn ctx req resp s).result = (fn ctx req resp s1).1
      ∧ (AuthWrapper NewAuthClient fn ctx req resp s).state = (fn ctx req resp s1).2 := by
  simp [AuthWrapper, hmeta, hvalid, fnCalls]

/-- C1 at a concrete call: a failing handler behind an accepting validator is
invoked once and its error comes back as it is. -/
theorem AuthWrapper_accepted_delegates_witness :
    fnCalls (AuthWrapper acceptAll failingHandler goodCtx "req" "resp" ()).trace
        = [(goodCtx, "req", "resp")]
      ∧ (AuthWrapper acceptAll failingHandler goodCtx "req" "resp" ()).result
        = (failingHandler goodCtx "req" "resp" ()).1
      ∧ (AuthWrapper acceptAll failingHandler goodCtx "req" "resp" ()).state
        = (failingHandler goodCtx "req" "resp" ()).2 :=
  AuthWrapper_accepted_delegates acceptAll failingHandler goodCtx "req" "resp" () ()
    [("Token", "good")] true rfl rfl

/-- C2: when the context carries metadata and the validation call returns an
error `e`, the wrapped handler is invoked zero times and the wrapper returns
exactly `e`: no handler call is recorded, and the state the wrapper leaves is
the one the validation call left, so the handler was not applied to it. -/
theorem AuthWrapper_rejected_returns_error {σ ρ Req Resp : Type}
    (NewAuthClient : String → AuthClient σ ρ) (fn : HandlerFunc σ Req Resp)
    (ctx : Context) (req : Req) (resp : Resp) (s s1 : σ) (md : Metadata)
    (payload : ρ) (e : GoError)
    (hmeta : FromContext ctx = (md, true))
    (hinvalid : (NewAuthClient "shippy.auth").ValidateToken Context.Background
        ⟨md.index "Token"⟩ s = ((payload, some e), s1)) :
    fnCalls (AuthWrapper NewAuthClient fn ctx req resp s).trace = []
      ∧ (AuthWrapper NewAuthClient fn ctx req resp s).result = some e
      ∧ (AuthWrapper NewAuthClient fn ctx req resp s).state = s1 := by
  simp [AuthWrapper, hmeta, hinvalid, fnCalls]

/-- C2 at a concrete call: behind a rejecting validator the recording handler
leaves no mark; the state holds the validation call only. -/
theorem AuthWrapper_rejected_returns_error_witness :
    fnCalls (AuthWrapper (recording (some (.foreign 401 "invalid token")))
          recordedHandler goodCtx "req" "resp" []).trace = []
      ∧ (AuthWrapper (recording (some (.foreign 401 "invalid token")))
          recordedHandler goodCtx "req" "resp" []).result
        = some (.foreign 401 "invalid token")
      ∧ (AuthWrapper (recording (some (.foreign 401 "invalid token")))
          recordedHandler goodCtx "req" "resp" []).state
        = [("shippy.auth", Context.Background, "good")] :=
  AuthWrapper_rejected_returns_error (recording (some (.foreign 401 "invalid token")))
    recordedHandler goodCtx "req" "resp" [] [("shippy.auth", Context.Background, "good")]
    [("Token", "good")] false (.foreign 401 "invalid token") rfl rfl

/-- C3: when no metadata mapping is attached to the context, the wrapper
returns the error `no auth meta-data found in request`, invokes the wrapped
handler zero times and issues no validation call. -/
theorem AuthWrapper_no_metadata {σ ρ Req Resp : Type}
    (NewAuthClient : String → AuthClient σ ρ) (fn : HandlerFunc σ Req Resp)
    (ctx : Context) (req : Req) (resp : Resp) (s : σ)
    (hnone : (FromContext ctx).2 = false) :
    (AuthWrapper NewAuthClient fn ctx req resp s).result
        = some (errorsNew "no auth meta-data found in request")
      ∧ fnCalls (AuthWrapper NewAuthClient fn ctx req resp s).trace = []
      ∧ validateCalls (AuthWrapper NewAuthClient fn ctx req resp s).trace = []
      ∧ (AuthWrapper NewAuthClient fn ctx req resp s).state = s := by
  cases hfc : FromContext ctx with
  | mk md ok =>
    rw [hfc] at hnone
    cases hnone
    simp [AuthWrapper, hfc, fnCalls, validateCalls]

/-- C3 at a concrete call: the background context, behind a cancel node, with
a validator that would accept. -/
theorem AuthWrapper_no_metadata_witness :
    (AuthWrapper acceptAll okHandler (.WithCancel .Background 1) "req" "resp" ()).result
        = some (errorsNew "no auth meta-data found in request")
      ∧ fnCalls (AuthWrapper acceptAll okHandler (.WithCancel .Background 1)
          "req" "resp" ()).trace = []
      ∧ validateCalls (AuthWrapper acceptAll okHandler (.WithCancel .Background 1)
          "req" "resp" ()).trace = []
      ∧ (AuthWrapper acceptAll okHandler (.WithCancel .Background 1)
          "req" "resp" ()).state = () :=
  AuthWrapper_no_metadata acceptAll okHandler (.WithCancel .Background 1) "req" "resp" ()
    rfl

/-- C4, as stated, fails: with an empty metadata mapping attached to the
context and a validator that accepts, the wrapper does not fail with the
missing-metadata error; it runs the wrapped handler once and returns its nil
result. -/
theorem AuthWrapper_empty_metadata_reaches_handler :
    FromContext emptyMetaCtx = ([], true)
      ∧ (AuthWrapper acceptAll okHandler emptyMetaCtx "req" "resp" ()).result = none
      ∧ fnCalls (AuthWrapper acceptAll okHandler emptyMetaCtx "req" "resp" ()).trace
          = [(emptyMetaCtx, "req", "resp")]
      ∧ (AuthWrapper (recording none) recordedHandler emptyMetaCtx "req" "resp" []).state
          = [("shippy.auth", Context.Background, ""), ("fn", emptyMetaCtx, "req")]
      ∧ ¬ ((AuthWrapper acceptAll okHandler emptyMetaCtx "req" "resp" ()).result
            = some (errorsNew "no auth meta-data found in request")
          ∧ fnCalls (AuthWrapper acceptAll okHandler emptyMetaCtx "req" "resp" ()).trace
            = []) := by
  refine ⟨rfl, ?_, ?_, rfl, ?_⟩ <;>
    simp [AuthWrapper, FromContext, emptyMetaCtx, acceptAll, okHandler, fnCalls]

/-- C4, amended: when the metadata mapping attached to the context is empty,
the wrapper issues one validation call carrying the empty-string token; if
that call returns an error `e` the wrapper returns `e`, the wrapped handler is
invoked zero times and the state is the one the validation call left; if it
returns a nil error the wrapped handler is invoked once, on the state the
validation call left, and its result and state are returned. -/
theorem AuthWrapper_empty_metadata {σ ρ Req Resp : Type}
    (NewAuthClient : String → AuthClient σ ρ) (fn : HandlerFunc σ Req Resp)
    (ctx : Context) (req : Req) (resp : Resp) (s : σ)
    (hempty : FromContext ctx = ([], true)) :
    validateCalls (AuthWrapper NewAuthClient fn ctx req resp s).trace
        = [("shippy.auth", Context.Background, ⟨""⟩)]
      ∧ (∀ (payload : ρ) (e : GoError) (s1 : σ),
          (NewAuthClient "shippy.auth").ValidateToken Context.Background ⟨""⟩ s
              = ((payload, some e), s1) →
            (AuthWrapper NewAuthClient fn ctx req resp s).result = some e
              ∧ fnCalls (AuthWrapper NewAuthClient fn ctx req resp s).trace = []
              ∧ (AuthWrapper NewAuthClient fn ctx req resp s).state = s1)
      ∧ (∀ (payload : ρ) (s1 : σ),
          (NewAuthClient "shippy.auth").ValidateToken Context.Background ⟨""⟩ s
              = ((payload, none), s1) →
            (AuthWrapper NewAuthClient fn ctx req resp s).result = (fn ctx req resp s1).1
              ∧ fnCalls (AuthWrapper NewAuthClient fn ctx req resp s).trace
                = [(ctx, req, resp)]
              ∧ (AuthWrapper NewAuthClient fn ctx req resp s).state
                = (fn ctx req resp s1).2) := by
  have hidx : Metadata.index [] "Token" = "" := rfl
  refine ⟨?_, ?_, ?_⟩
  · simp only [AuthWrapper, hempty, hidx]
    split <;> simp [validateCalls]
  · intro payload e s1 h
    simp [AuthWrapper, hempty, hidx, h, fnCalls]
  · intro payload s1 h
    simp [AuthWrapper, hempty, hidx, h, fnCalls]

/-- C4, amended, at concrete calls: the empty mapping in front of a rejecting
validator (the handler leaves no mark) and in front of an accepting one (the
handler's mark follows the validation call). -/
theorem AuthWrapper_empty_metadata_witness :
    validateCalls (AuthWrapper (recording (some (.foreign 401 "invalid token")))
          recordedHandler emptyMetaCtx "req" "resp" []).trace
        = [("shippy.auth", Context.Background, ⟨""⟩)]
      ∧ ((AuthWrapper (recording (some (.foreign 401 "invalid token")))
            recordedHandler emptyMetaCtx "req" "resp" []).result
          = some (.foreign 401 "invalid token")
        ∧ fnCalls (AuthWrapper (recording (some (.foreign 401 "invalid token")))
            recordedHandler emptyMetaCtx "req" "resp" []).trace = []
        ∧ (AuthWrapper (recording (some (.foreign 401 "invalid token")))
            recordedHandler emptyMetaCtx "req" "resp" []).state
          = [("shippy.auth", Context.Background, "")])
      ∧ ((AuthWrapper (recording none) recordedHandler emptyMetaCtx
            "req" "resp" []).result = none
        ∧ fnCalls (AuthWrapper (recording none) recordedHandler emptyMetaCtx
            "req" "resp" []).trace = [(emptyMetaCtx, "req", "resp")]
        ∧ (AuthWrapper (recording none) recordedHandler emptyMetaCtx
            "req" "resp" []).state
          = [("shippy.auth", Context.Background, ""), ("fn", emptyMetaCtx, "req")]) :=
  ⟨(AuthWrapper_empty_metadata (recording (some (.foreign 401 "invalid token")))
      recordedHandler emptyMetaCtx "req" "resp" [] rfl).1,
    (AuthWrapper_empty_metadata (recording (some (.foreign 401 "invalid token")))
      recordedHandler emptyMetaCtx "req" "resp" [] rfl).2.1 false
      (.foreign 401 "invalid token") [("shippy.auth", Context.Background, "")] rfl,
    (AuthWrapper_empty_metadata (recording none)
      recordedHandler emptyMetaCtx "req" "resp" [] rfl).2.2 true
      [("shippy.auth", Context.Background, "")] rfl⟩

/-- C5: when a metadata mapping is attached to the context, the wrapper issues
exactly one validation call, and the token it carries is the map index
`meta["Token"]`: the value stored under `Token`, whatever it is, the empty
string included.  The call is the real one: what the wrapper returns and the
state it leaves are those of the auth client applied once, to that token, on
the state the wrapper started from (followed by the wrapped handler when the
error is nil). -/
theorem AuthWrapper_sends_stored_token {σ ρ Req Resp : Type}
    (NewAuthClient : String → AuthClient σ ρ) (fn : HandlerFunc σ Req Resp)
    (ctx : Context) (req : Req) (resp : Resp) (s : σ) (md : Metadata)
    (hmeta : FromContext ctx = (md, true)) :
    validateCalls (AuthWrapper NewAuthClient fn ctx req resp s).trace
        = [("shippy.auth", Context.Background, ⟨md.index "Token"⟩)]
      ∧ (∀ v : String, md.lookup "Token" = some v →
          validateCalls (AuthWrapper NewAuthClient fn ctx req resp s).trace
            = [("shippy.auth", Context.Background, ⟨v⟩)])
      ∧ (∀ (v : String) (payload : ρ) (e : GoError) (s1 : σ),
          md.lookup "Token" = some v →
          (NewAuthClient "shippy.auth").ValidateToken Context.Background ⟨v⟩ s
              = ((payload, some e), s1) →
            (AuthWrapper NewAuthClient fn ctx req resp s).result = some e
              ∧ (AuthWrapper NewAuthClient fn ctx req resp s).state = s1)
      ∧ (∀ (v : String) (payload : ρ) (s1 : σ),
          md.lookup "Token" = some v →
          (NewAuthClient "shippy.auth").ValidateToken Context.Background ⟨v⟩ s
              = ((payload, none), s1) →
            (AuthWrapper NewAuthClient fn ctx req resp s).result = (fn ctx req resp s1).1
              ∧ (AuthWrapper NewAuthClient fn ctx req resp s).state
                = (fn ctx req resp s1).2)
      ∧ (∀ (payload : ρ) (err : Option GoError) (s1 : σ),
          (NewAuthClient "shippy.auth").ValidateToken Context.Background
              ⟨md.index "Token"⟩ s = ((payload, err), s1) →
            (AuthWrapper NewAuthClient fn ctx req resp s).result
                = (match err with
                  | some e => some e
                  | none => (fn ctx req resp s1).1)
              ∧ (AuthWrapper NewAuthClient fn ctx req resp s).state
                = (match err with
                  | some _ => s1
                  | none => (fn ctx req resp s1).2)) := by
  have h1 : validateCalls (AuthWrapper NewAuthClient fn ctx req resp s).trace
      = [("shippy.auth", Context.Background, ⟨md.index "Token"⟩)] := by
    simp only [AuthWrapper, hmeta]
    split <;> simp [validateCalls]
  have hidx : ∀ v : String, md.lookup "Token" = some v → md.index "Token" = v := by
    intro v hv
    simp [Metadata.index, hv]
  refine ⟨h1, ?_, ?_, ?_, ?_⟩
  · intro v hv
    rw [h1, hidx v hv]
  · intro v payload e s1 hv h
    rw [← hidx v hv] at h
    simp [AuthWrapper, hmeta, h]
  · intro v payload s1 hv h
    rw [← hidx v hv] at h
    simp [AuthWrapper, hmeta, h]
  · intro payload err s1 h
    cases err with
    | some e => simp [AuthWrapper, hmeta, h]
    | none => simp [AuthWrapper, hmeta, h]

/-- C5 at a concrete call: an empty-string token stored under `Token` reaches
the validator, once, and is judged there. -/
theorem AuthWrapper_sends_stored_token_witness :
    validateCalls (AuthWrapper (recording (some (.foreign 401 "invalid token")))
          recordedHandler (.NewContext .Background [("Token", "")])
          "req" "resp" []).trace
        = [("shippy.auth", Context.Background, ⟨""⟩)]
      ∧ (AuthWrapper (recording (some (.foreign 401 "invalid token")))
          recordedHandler (.NewContext .Background [("Token", "")])
          "req" "resp" []).result = some (.foreign 401 "invalid token")
      ∧ (AuthWrapper (recording (some (.foreign 401 "invalid token")))
          recordedHandler (.NewContext .Background [("Token", "")])
          "req" "resp" []).state = [("shippy.auth", Context.Background, "")] :=
  ⟨(AuthWrapper_sends_stored_token (recording (some (.foreign 401 "invalid token")))
      recordedHandler (.NewContext .Background [("Token", "")]) "req" "resp" []
      [("Token", "")] rfl).2.1 "" rfl,
    (AuthWrapper_sends_stored_token (recording (some (.foreign 401 "invalid token")))
      recordedHandler (.NewContext .Background [("Token", "")]) "req" "resp" []
      [("Token", "")] rfl).2.2.1 "" false (.foreign 401 "invalid token")
      [("shippy.auth", Context.Background, "")] rfl rfl⟩

/-- C8, as stated, fails: the inbound context is cancelled and the validator
honours the context it is given (under the inbound context it answers `context
canceled`), yet the validation call of the wrapper is not cancelled: the
validator really received the background context, which is not derived from
the inbound one and is not cancelled, so it accepted and the wrapped handler
ran. -/
theorem AuthWrapper_validation_not_cancelled :
    Context.cancelled [7] cancellableCtx = true
      ∧ ((cancelAware [7] "shippy.auth").ValidateToken cancellableCtx ⟨"good"⟩ []).1.2
        = some (.foreign 499 "context canceled")
      ∧ (AuthWrapper (cancelAware [7]) recordedHandler cancellableCtx
          "req" "resp" []).result = none
      ∧ (AuthWrapper (cancelAware [7]) recordedHandler cancellableCtx
          "req" "resp" []).state
        = [("shippy.auth", Context.Background, "good"), ("fn", cancellableCtx, "req")]
      ∧ validateCalls (AuthWrapper (cancelAware [7]) recordedHandler cancellableCtx
          "req" "resp" []).trace
        = [("shippy.auth", Context.Background, ⟨"good"⟩)]
      ∧ Context.derivedFrom cancellableCtx Context.Background = false
      ∧ Context.cancelled [7] Context.Background = false := by
  refine ⟨by decide, rfl, rfl, rfl, ?_, by decide, by decide⟩
  simp [AuthWrapper, FromContext, cancellableCtx, goodCtx, cancelAware,
    validateCalls, Metadata.index, List.lookup, Context.cancelled]

/-- C8, amended: for every call whose context carries metadata, the one
validation call runs under the background context: the wrapper's result and
state are those of the auth client applied under `Context.Background` (followed
by the wrapped handler, under the inbound context, when the error is nil).
That context is neither the inbound context nor derived from it, and it is
never cancelled, whichever cancel functions have been called. -/
theorem AuthWrapper_validates_under_background {σ ρ Req Resp : Type}
    (NewAuthClient : String → AuthClient σ ρ) (fn : HandlerFunc σ Req Resp)
    (ctx : Context) (req : Req) (resp : Resp) (s : σ) (md : Metadata)
    (hmeta : FromContext ctx = (md, true)) :
    (validateCalls (AuthWrapper NewAuthClient fn ctx req resp s).trace).map
        (fun c => c.2.1) = [Context.Background]
      ∧ (∀ (payload : ρ) (e : GoError) (s1 : σ),
          (NewAuthClient "shippy.auth").ValidateToken Context.Background
              ⟨md.index "Token"⟩ s = ((payload, some e), s1) →
            (AuthWrapper NewAuthClient fn ctx req resp s).result = some e
              ∧ (AuthWrapper NewAuthClient fn ctx req resp s).state = s1)
      ∧ (∀ (payload : ρ) (s1 : σ),
          (NewAuthClient "shippy.auth").ValidateToken Context.Background
              ⟨md.index "Token"⟩ s = ((payload, none), s1) →
            (AuthWrapper NewAuthClient fn ctx req resp s).result = (fn ctx req resp s1).1
              ∧ (AuthWrapper NewAuthClient fn ctx req resp s).state
                = (fn ctx req resp s1).2)
      ∧ Context.derivedFrom ctx Context.Background = false
      ∧ ∀ fired : List Nat, Context.cancelled fired Context.Background = false := by
  refine ⟨?_, ?_, ?_, ?_, fun _ => rfl⟩
  · simp only [AuthWrapper, hmeta]
    split <;> simp [validateCalls]
  · intro payload e s1 h
    simp [AuthWrapper, hmeta, h]
  · intro payload s1 h
    simp [AuthWrapper, hmeta, h]
  · have hne : ctx ≠ Context.Background := by
      intro h
      rw [h] at hmeta
      simp [FromContext] at hmeta
    simp [Context.derivedFrom, hne]

/-- C8, amended, at a concrete call: the cancelled inbound context in front of
the validator that honours its context. -/
theorem AuthWrapper_validates_under_background_witness :
    (validateCalls (AuthWrapper (cancelAware [7]) recordedHandler cancellableCtx
          "req" "resp" []).trace).map (fun c => c.2.1) = [Context.Background]
      ∧ ((AuthWrapper (cancelAware [7]) recordedHandler cancellableCtx
            "req" "resp" []).result = none
        ∧ (AuthWrapper (cancelAware [7]) recordedHandler cancellableCtx
            "req" "resp" []).state
          = [("shippy.auth", Context.Background, "good"), ("fn", cancellableCtx, "req")])
      ∧ Context.derivedFrom cancellableCtx Context.Background = false :=
  ⟨(AuthWrapper_validates_under_background (cancelAware [7]) recordedHandler
      cancellableCtx "req" "resp" [] [("Token", "good")] rfl).1,
    (AuthWrapper_validates_under_background (cancelAware [7]) recordedHandler
      cancellableCtx "req" "resp" [] [("Token", "good")] rfl).2.2.1 true
      [("shippy.auth", Context.Background, "good")] rfl,
    (AuthWrapper_validates_under_background (cancelAware [7]) recordedHandler
      cancellableCtx "req" "resp" [] [("Token", "good")] rfl).2.2.2.1⟩

/-- C10: the wrapper never looks at the validation response payload: for two
auth clients whose validation calls both return a nil error (with whatever
payloads), the wrapper invokes the wrapped handler in both cases, on the state
the validation call left, and returns the handler's own result and state; the
two runs produce the same result, the same events and the same state. -/
theorem AuthWrapper_ignores_payload {σ ρ Req Resp : Type}
    (clientA clientB : String → AuthClient σ ρ) (fn : HandlerFunc σ Req Resp)
    (ctx : Context) (req : Req) (resp : Resp) (s s1 : σ) (md : Metadata)
    (payloadA payloadB : ρ)
    (hmeta : FromContext ctx = (md, true))
    (hA : (clientA "shippy.auth").ValidateToken Context.Background
        ⟨md.index "Token"⟩ s = ((payloadA, none), s1))
    (hB : (clientB "shippy.auth").ValidateToken Context.Background
        ⟨md.index "Token"⟩ s = ((payloadB, none), s1)) :
    (AuthWrapper clientA fn ctx req resp s).result
        = (AuthWrapper clientB fn ctx req resp s).result
      ∧ (AuthWrapper clientA fn ctx req resp s).trace
        = (AuthWrapper clientB fn ctx req resp s).trace
      ∧ (AuthWrapper clientA fn ctx req resp s).state
        = (AuthWrapper clientB fn ctx req resp s).state
      ∧ fnCalls (AuthWrapper clientA fn ctx req resp s).trace = [(ctx, req, resp)]
      ∧ fnCalls (AuthWrapper clientB fn ctx req resp s).trace = [(ctx, req, resp)]
      ∧ (AuthWrapper clientA fn ctx req resp s).result = (fn ctx req resp s1).1
      ∧ (AuthWrapper clientA fn ctx req resp s).state = (fn ctx req resp s1).2
      ∧ (AuthWrapper clientB fn ctx req resp s).result = (fn ctx req resp s1).1
      ∧ (AuthWrapper clientB fn ctx req resp s).state = (fn ctx req resp s1).2 := by
  simp [AuthWrapper, hmeta, hA, hB, fnCalls]

/-- C10 at a concrete call: a payload marked valid and one marked not valid,
both with a nil error; the recording handler runs in both. -/
theorem AuthWrapper_ignores_payload_witness :
    (AuthWrapper (recording none) recordedHandler goodCtx "req" "resp" []).result
        = (AuthWrapper recordingMarkedInvalid recordedHandler goodCtx
            "req" "resp" []).result
      ∧ (AuthWrapper (recording none) recordedHandler goodCtx "req" "resp" []).trace
        = (AuthWrapper recordingMarkedInvalid recordedHandler goodCtx
            "req" "resp" []).trace
      ∧ (AuthWrapper (recording none) recordedHandler goodCtx "req" "resp" []).state
        = (AuthWrapper recordingMarkedInvalid recordedHandler goodCtx
            "req" "resp" []).state
      ∧ fnCalls (AuthWrapper (recording none) recordedHandler goodCtx
          "req" "resp" []).trace = [(goodCtx, "req", "resp")]
      ∧ fnCalls (AuthWrapper recordingMarkedInvalid recordedHandler goodCtx
          "req" "resp" []).trace = [(goodCtx, "req", "resp")]
      ∧ (AuthWrapper (recording none) recordedHandler goodCtx "req" "resp" []).result
        = none
      ∧ (AuthWrapper (recording none) recordedHandler goodCtx "req" "resp" []).state
        = [("shippy.auth", Context.Background, "good"), ("fn", goodCtx, "req")]
      ∧ (AuthWrapper recordingMarkedInvalid recordedHandler goodCtx
          "req" "resp" []).result = none
      ∧ (AuthWrapper recordingMarkedInvalid recordedHandler goodCtx
          "req" "resp" []).state
        = [("shippy.auth", Context.Background, "good"), ("fn", goodCtx, "req")] :=
  AuthWrapper_ignores_payload (recording none) recordingMarkedInvalid recordedHandler
    goodCtx "req" "resp" [] [("shippy.auth", Context.Background, "good")]
    [("Token", "good")] true false rfl rfl rfl

/-! ## The bootstrap routine: theorems -/

/-- C6: on every execution of `main` the session's `Close` is invoked exactly
once, on the session `CreateSession` returned, as the last thing `main` does:
when `CreateSession` fails (`main` panics with the connection report, and the
state it leaves is `Close` applied once to the state `CreateSession` left),
and when the server loop returns nil or an error (`main` returns, and the state
it leaves is `Close` applied once to the state the server loop left). -/
theorem main_closes_session_once {σ S : Type} (environ : String → Option String)
    (ds : Datastore σ S) (Run : σ → Option GoError × σ) (s : σ) :
    closeCalls (main environ ds Run s).trace
        = [(ds.CreateSession (host environ) s).1.1]
      ∧ (main environ ds Run s).trace.getLast?
        = some (.Close (ds.CreateSession (host environ) s).1.1)
      ∧ (∀ e : GoError, (ds.CreateSession (host environ) s).1.2 = some e →
          (main environ ds Run s).result
            = .panicked (connectFailure (host environ) (some e)))
      ∧ ((ds.CreateSession (host environ) s).1.2 = none →
          (main environ ds Run s).result = .returned)
      ∧ (∀ e : GoError, (ds.CreateSession (host environ) s).1.2 = some e →
          (main environ ds Run s).state
            = ds.Close (ds.CreateSession (host environ) s).1.1
                (ds.CreateSession (host environ) s).2)
      ∧ ((ds.CreateSession (host environ) s).1.2 = none →
          (main environ ds Run s).state
            = ds.Close (ds.CreateSession (host environ) s).1.1
                (Run (ds.CreateSession (host environ) s).2).2) := by
  refine ⟨?_, ?_, ?_, ?_, ?_, ?_⟩
  · cases hc : (ds.CreateSession (host environ) s).1.2 with
    | some e => simp [main, mainAfterDefer, hc, closeCalls]
    | none =>
      cases hr : (Run (ds.CreateSession (host environ) s).2).1 with
      | some e => simp [main, mainAfterDefer, hc, hr, closeCalls]
      | none => simp [main, mainAfterDefer, hc, hr, closeCalls]
  · show (_ ++ [_]).getLast? = _
    exact List.getLast?_concat _
  · intro e hc
    simp [main, mainAfterDefer, hc]
  · intro hc
    cases hr : (Run (ds.CreateSession (host environ) s).2).1 with
    | some e => simp [main, mainAfterDefer, hc, hr]
    | none => simp [main, mainAfterDefer, hc, hr]
  · intro e hc
    simp [main, mainAfterDefer, hc]
  · intro hc
    cases hr : (Run (ds.CreateSession (host environ) s).2).1 with
    | some e => simp [main, mainAfterDefer, hc, hr]
    | none => simp [main, mainAfterDefer, hc, hr]

/-- C6 at concrete executions, on a datastore and a server loop that record
what is really applied to them: a failed open, a server loop that stops
normally and one that stops with an error each leave exactly one `Close`, as
the last operation. -/
theorem main_closes_session_once_witness :
    (closeCalls (main envUnset recordingStore (recordingRun none) []).trace = [none]
        ∧ (main envUnset recordingStore (recordingRun none) []).result
          = .panicked
            "Could not connect to datastore with host 0.0.0.0:27017 - no reachable servers"
        ∧ (main envUnset recordingStore (recordingRun none) []).state
          = [("CreateSession", "0.0.0.0:27017"), ("Close", "")])
      ∧ (closeCalls (main envWithHost recordingStore (recordingRun none) []).trace
          = [some 1]
        ∧ (main envWithHost recordingStore (recordingRun none) []).result = .returned
        ∧ (main envWithHost recordingStore (recordingRun none) []).state
          = [("CreateSession", "mongo:27017"), ("Run", ""), ("Close", "")])
      ∧ (closeCalls (main envWithHost recordingStore
            (recordingRun (some (.foreign 2 "listen: address already in use"))) []).trace
          = [some 1]
        ∧ (main envWithHost recordingStore
            (recordingRun (some (.foreign 2 "listen: address already in use"))) []).result
          = .returned
        ∧ (main envWithHost recordingStore
            (recordingRun (some (.foreign 2 "listen: address already in use"))) []).state
          = [("CreateSession", "mongo:27017"), ("Run", ""), ("Close", "")]) := by
  have h1 := main_closes_session_once envUnset recordingStore (recordingRun none) []
  have h2 := main_closes_session_once envWithHost recordingStore (recordingRun none) []
  have h3 := main_closes_session_once envWithHost recordingStore
    (recordingRun (some (.foreign 2 "listen: address already in use"))) []
  refine ⟨⟨h1.1, ?_, ?_⟩, ⟨h2.1, h2.2.2.2.1 rfl, ?_⟩, ⟨h3.1, h3.2.2.2.1 rfl, ?_⟩⟩
  · rw [h1.2.2.1 (.foreign 1 "no reachable servers") rfl]
    rfl
  · rw [h1.2.2.2.2.1 (.foreign 1 "no reachable servers") rfl]
    rfl
  · rw [h2.2.2.2.2.2 rfl]
    rfl
  · rw [h3.2.2.2.2.2 rfl]
    rfl

/-- C7: when `CreateSession` returns an error, `main` never serves: it does
nothing but read `DB_HOST`, call `CreateSession`, report through `log.Panicf`
and run the deferred `Close`; no service is created, no handler registered and
the server loop is not started: the state `main` leaves is the one
`CreateSession` left, closed, with the server loop never applied to it.
`main` ends in a panic whose message contains the attempted address and the
text of the original error. -/
theorem main_open_failure_is_fatal {σ S : Type} (environ : String → Option String)
    (ds : Datastore σ S) (Run : σ → Option GoError × σ) (s : σ) (e : GoError)
    (hfail : (ds.CreateSession (host environ) s).1.2 = some e) :
    (main environ ds Run s).trace
        = [.Getenv "DB_HOST", .CreateSession (host environ),
            .logPanicf (connectFailure (host environ) (some e)),
            .Close (ds.CreateSession (host environ) s).1.1]
      ∧ (∀ ev ∈ (main environ ds Run s).trace, ev.serves = false)
      ∧ (main environ ds Run s).result
        = .panicked (connectFailure (host environ) (some e))
      ∧ connectFailure (host environ) (some e)
        = "Could not connect to datastore with host " ++ host environ ++ " - " ++ e.Error
      ∧ (host environ).data <:+: (connectFailure (host environ) (some e)).data
      ∧ e.Error.data <:+: (connectFailure (host environ) (some e)).data
      ∧ (main environ ds Run s).state
        = ds.Close (ds.CreateSession (host environ) s).1.1
            (ds.CreateSession (host environ) s).2 := by
  have ht : (main environ ds Run s).trace
      = [.Getenv "DB_HOST", .CreateSession (host environ),
          .logPanicf (connectFailure (host environ) (some e)),
          .Close (ds.CreateSession (host environ) s).1.1] := by
    simp [main, mainAfterDefer, hfail]
  refine ⟨ht, ?_, ?_, rfl, ?_, ?_, ?_⟩
  · intro ev hev
    rw [ht] at hev
    simp only [List.mem_cons, List.mem_singleton, List.not_mem_nil, or_false] at hev
    rcases hev with h | h | h | h <;> subst h <;> rfl
  · simp [main, mainAfterDefer, hfail]
  · refine ⟨"Could not connect to datastore with host ".data,
      (" - " ++ e.Error).data, ?_⟩
    simp [connectFailure, fmtError, String.data_append]
  · refine ⟨("Could not connect to datastore with host " ++ host environ ++ " - ").data,
      [], ?_⟩
    simp [connectFailure, fmtError, String.data_append]
  · simp [main, mainAfterDefer, hfail]

/-- C7 at a concrete execution, on a datastore and a server loop that record
what is really applied to them: no variable set, the default address is not
reachable, and the server loop leaves no mark. -/
theorem main_open_failure_is_fatal_witness :
    (main envUnset recordingStore (recordingRun none) []).trace
        = [.Getenv "DB_HOST", .CreateSession (host envUnset),
            .logPanicf (connectFailure (host envUnset)
              (some (.foreign 1 "no reachable servers"))),
            .Close (recordingStore.CreateSession (host envUnset) []).1.1]
      ∧ (∀ ev ∈ (main envUnset recordingStore (recordingRun none) []).trace,
          ev.serves = false)
      ∧ (main envUnset recordingStore (recordingRun none) []).result
        = .panicked (connectFailure (host envUnset)
            (some (.foreign 1 "no reachable servers")))
      ∧ connectFailure (host envUnset) (some (.foreign 1 "no reachable servers"))
        = "Could not connect to datastore with host " ++ host envUnset ++ " - "
            ++ GoError.Error (.foreign 1 "no reachable servers")
      ∧ (host envUnset).data
        <:+: (connectFailure (host envUnset)
            (some (.foreign 1 "no reachable servers"))).data
      ∧ (GoError.Error (.foreign 1 "no reachable servers")).data
        <:+: (connectFailure (host envUnset)
            (some (.foreign 1 "no reachable servers"))).data
      ∧ (main envUnset recordingStore (recordingRun none) []).state
        = [("CreateSession", "0.0.0.0:27017"), ("Close", "")] :=
  main_open_failure_is_fatal envUnset recordingStore (recordingRun none) []
    (.foreign 1 "no reachable servers") rfl

end Shippy
